import Mathlib

/-!
# Verification of the `tickets` package (movie ticket sales and goodie exchanges)

Shallow embedding of `tickets/tickets.go`.  The package's global mutable
variables (`maxExchanges`, `maxMovies`, `maxShowings`, `maxSeats`,
`maxWindows`, `totExchanges`, `ticketRqstDB`, `seatsSold`, `salesOpen`,
the `sync.Once` init gate, and the position of the `ticketRoll` channel)
become the fields of an explicit state record, and each Go function becomes
a Lean function threading that state.  Sequential (non-concurrent)
executions are modelled: the `ticketRoll` channel fed by `ticketProducer`
(which pushes 1, 2, 3, ... forever and never closes) is modelled by the
`nextTicketNum` field, the number the next channel receive would deliver.
Go `int` becomes `Int`; the `int32` seat counters updated with
`atomic.AddInt32` wrap around at 2^31 and are modelled with `wrap32`.
`os.Exit(1)` in `nextTicket` (capacity exhaustion) and `panic` in
`readTicket` are modelled as distinguished abnormal-outcome constructors,
never as ordinary error returns.  The `log.Logger` argument is modelled as
an opaque `Option Unit` (only its nil-ness is ever inspected); log output
is not modelled.
-/

namespace Tickets

/-- One line of the `ItemsSold` slice in a `Receipt` (Go struct `RItem`). -/
structure RItem where
  Desc : String
  Pennies : Int
deriving Repr, DecidableEq

/-- The itemized receipt for goods actually sold (Go struct `Receipt`).
The Go `Time interface{}` field is an opaque token, modelled as a `String`
copied as-is. -/
structure Receipt where
  Time : String
  Window : Int
  ItemsSold : List RItem
  Total : Int
deriving Repr, DecidableEq

/-- A ticket record (Go struct `Ticket`). -/
structure Ticket where
  TicketNum : Int
  Movie : Int
  Showing : Int
  Price : Int
  SoldOut : Bool
  Goodies : Bool
  Exchanged : Bool
  XchOld : String
  XchNew : String
  Window : Int
deriving Repr, DecidableEq

/-- The Go zero value of `Ticket`, as produced by `make([]Ticket, n)`. -/
def Ticket.zero : Ticket :=
  { TicketNum := 0, Movie := 0, Showing := 0, Price := 0, SoldOut := false
    Goodies := false, Exchanged := false, XchOld := "", XchNew := "", Window := 0 }

instance : Inhabited Ticket := ⟨Ticket.zero⟩

/-- The package-level mutable state of `tickets.go`.  `nextTicketNum` is the
value the next receive from the `ticketRoll` channel delivers (the producer
enqueues 1, 2, 3, ... in order and never closes the channel).  `initDone`
is the state of the `sync.Once` gate `initGate`. -/
structure TicketsState where
  maxExchanges : Int
  maxMovies : Int
  maxShowings : Int
  maxSeats : Int
  maxWindows : Int
  totExchanges : Int
  ticketRqstDB : List Ticket
  seatsSold : List (List Int)
  salesOpen : Bool
  initDone : Bool
  nextTicketNum : Int
deriving Repr, DecidableEq

/-- Package-level zero values at process start (ints 0, slices nil,
bools false; the nil `ticketRoll` channel is represented by
`nextTicketNum = 0`, never consulted before `Init`). -/
def initialState : TicketsState :=
  { maxExchanges := 0, maxMovies := 0, maxShowings := 0, maxSeats := 0
    maxWindows := 0, totExchanges := 0, ticketRqstDB := [], seatsSold := []
    salesOpen := false, initDone := false, nextTicketNum := 0 }

/-- Two's-complement wraparound of Go `int32` arithmetic
(`atomic.AddInt32` wraps on overflow). -/
def wrap32 (x : Int) : Int := (x + 2 ^ 31) % 2 ^ 32 - 2 ^ 31

/-- The `seatsSold[m][s]` counter (0 when out of range, which callers of
`checkAvailabilityAndPrice` rule out by validation). -/
def seatCount (st : TicketsState) (m s : Int) : Int :=
  (st.seatsSold.getD m.toNat []).getD s.toNat 0

/-- Configuration errors from `initOnce`.  Each constructor records which
parameter the Go error message names, together with the integer the message
interpolates (for `badMaxShowings`, `badMaxSeats` and `badMaxWindows` the Go
code interpolates `maxMovies`, reproduced faithfully here). -/
inductive ConfigErr where
  | missingLogger : ConfigErr
  | badMaxExchanges (v : Int) : ConfigErr
  | badMaxMovies (v : Int) : ConfigErr
  | badMaxShowings (v : Int) : ConfigErr
  | badMaxSeats (v : Int) : ConfigErr
  | badMaxWindows (v : Int) : ConfigErr
deriving Repr, DecidableEq

/-- Go `initOnce(parmL, parmMaxExchanges, parmMaxMovies, parmMaxShowings,
parmMaxSeats, parmMaxWindows)`: the real work of `Init`, protected by the
`sync.Once` gate.  Each global is assigned from its parameter and only then
validated, exactly as in the source, so a failing call leaves the already
assigned globals overwritten.  On success it allocates `seatsSold`
(`maxMovies` rows of `maxShowings` zeroed counters), sizes `ticketRqstDB` to
`maxMovies*maxShowings*maxSeats+1` zero records (slot 0 unused), starts the
ticket producer (`nextTicketNum := 1`) and sets `salesOpen`. -/
def initOnce (parmL : Option Unit) (pE pM pS pSeats pW : Int)
    (st : TicketsState) : Option ConfigErr × TicketsState :=
  if parmL.isNone then (some ConfigErr.missingLogger, st)
  else
    let st1 := { st with maxExchanges := pE }
    if st1.maxExchanges < 0 then (some (ConfigErr.badMaxExchanges st1.maxExchanges), st1)
    else
      let st2 := { st1 with maxMovies := pM }
      if st2.maxMovies < 1 then (some (ConfigErr.badMaxMovies st2.maxMovies), st2)
      else
        let st3 := { st2 with maxShowings := pS }
        if st3.maxShowings < 1 then (some (ConfigErr.badMaxShowings st3.maxMovies), st3)
        else
          let st4 := { st3 with maxSeats := pSeats }
          if st4.maxSeats < 1 then (some (ConfigErr.badMaxSeats st4.maxMovies), st4)
          else
            let st5 := { st4 with maxWindows := pW }
            if st5.maxWindows < 1 then (some (ConfigErr.badMaxWindows st5.maxMovies), st5)
            else
              (none,
                { st5 with
                  seatsSold := List.replicate pM.toNat (List.replicate pS.toNat 0)
                  ticketRqstDB := List.replicate (pM * pS * pSeats + 1).toNat Ticket.zero
                  nextTicketNum := 1
                  salesOpen := true })

/-- Go `Init`: wraps `initOnce` in `initGate.Do`.  The local `initErr`
starts as nil each call; `sync.Once.Do` runs the closure only on the first
call (marking the gate done even when `initOnce` errors), so a call after
the first returns the untouched nil `initErr`. -/
def Init (parmL : Option Unit) (pE pM pS pSeats pW : Int)
    (st : TicketsState) : Option ConfigErr × TicketsState :=
  if st.initDone then (none, st)
  else
    let r := initOnce parmL pE pM pS pSeats pW st
    (r.1, { r.2 with initDone := true })

/-- Go `nextTicket()`: receives the next number `t` from `ticketRoll`.
If `t >= len(ticketRqstDB)` the Go code logs and calls `os.Exit(1)`
(capacity exhaustion is fatal), modelled as `none`.  Otherwise it stamps
`ticketRqstDB[t].TicketNum = t` and returns that record.  The
channel-closed error branch never fires sequentially (the producer loops
forever) and is not modelled. -/
def nextTicket (st : TicketsState) : Option (Ticket × TicketsState) :=
  let t := st.nextTicketNum
  if t ≥ (st.ticketRqstDB.length : Int) then none
  else
    let stamped := { st.ticketRqstDB.getD t.toNat Ticket.zero with TicketNum := t }
    some (stamped,
      { st with
        ticketRqstDB := st.ticketRqstDB.set t.toNat stamped
        nextTicketNum := t + 1 })

/-- Outcome of Go `readTicket`: an ordinary error return for an identifier
outside the DB (`errOutside`) or for the dead `case 0` branch
(`errNotAlloc`), the `default:` branch `panic` (`panicked`, recording the
requested number and the mismatching stamp), or a field-by-field copy of
the record (`ok`). -/
inductive ReadOutcome where
  | errOutside (tickNum : Int) : ReadOutcome
  | errNotAlloc (tickNum : Int) : ReadOutcome
  | panicked (tickNum stamped : Int) : ReadOutcome
  | ok (t : Ticket) : ReadOutcome
deriving Repr, DecidableEq

/-- Go `readTicket(tickNum)`: range check first (`tickNum < 1 ||
tickNum >= len(ticketRqstDB)` returns an error), then the switch on
`tickNum`: `case 0` (unreachable here) returns a not-allocated error,
`case ticketRqstDB[tickNum].TicketNum` copies the record, and `default`
panics. -/
def readTicket (st : TicketsState) (tickNum : Int) : ReadOutcome :=
  if tickNum < 1 ∨ tickNum ≥ (st.ticketRqstDB.length : Int) then
    ReadOutcome.errOutside tickNum
  else
    let rec0 := st.ticketRqstDB.getD tickNum.toNat Ticket.zero
    if tickNum = 0 then ReadOutcome.errNotAlloc tickNum
    else if tickNum = rec0.TicketNum then
      ReadOutcome.ok
        { TicketNum := rec0.TicketNum, Movie := rec0.Movie
          Showing := rec0.Showing, Price := rec0.Price, SoldOut := rec0.SoldOut
          Goodies := rec0.Goodies, Exchanged := rec0.Exchanged
          XchOld := rec0.XchOld, XchNew := rec0.XchNew, Window := rec0.Window }
    else ReadOutcome.panicked tickNum rec0.TicketNum

/-- Go `checkAvailabilityAndPrice(m, s)`: the flat price is 1000 pennies;
`atomic.AddInt32(&seatsSold[m][s], 1)` increments the `int32` counter (with
wraparound) and the post-increment value is compared against `maxSeats`. -/
def checkAvailabilityAndPrice (m s : Int) (st : TicketsState) :
    (Int × Bool) × TicketsState :=
  let priceInPennies : Int := 1000
  let row := st.seatsSold.getD m.toNat []
  let consumedSeatsIncludingThisOne := wrap32 (row.getD s.toNat 0 + 1)
  (⟨priceInPennies, consumedSeatsIncludingThisOne > st.maxSeats⟩,
    { st with
      seatsSold := st.seatsSold.set m.toNat (row.set s.toNat consumedSeatsIncludingThisOne) })

/-- Go `updateTicketExchange(t)`: rejects a `TicketNum` outside the DB
(returning the offending number the error message interpolates), otherwise
overwrites only the exchange fields of the matching record. -/
def updateTicketExchange (t : Ticket) (st : TicketsState) :
    Option Int × TicketsState :=
  if t.TicketNum < 1 ∨ t.TicketNum ≥ (st.ticketRqstDB.length : Int) then
    (some t.TicketNum, st)
  else
    let old := st.ticketRqstDB.getD t.TicketNum.toNat Ticket.zero
    (none,
      { st with
        ticketRqstDB := st.ticketRqstDB.set t.TicketNum.toNat
          { old with Exchanged := t.Exchanged, XchOld := t.XchOld, XchNew := t.XchNew } })

/-- Go `updateTicketSale(t)`: rejects a `TicketNum` outside the DB,
otherwise overwrites only the sale fields of the matching record. -/
def updateTicketSale (t : Ticket) (st : TicketsState) :
    Option Int × TicketsState :=
  if t.TicketNum < 1 ∨ t.TicketNum ≥ (st.ticketRqstDB.length : Int) then
    (some t.TicketNum, st)
  else
    let old := st.ticketRqstDB.getD t.TicketNum.toNat Ticket.zero
    (none,
      { st with
        ticketRqstDB := st.ticketRqstDB.set t.TicketNum.toNat
          { old with Movie := t.Movie, Showing := t.Showing, Price := t.Price
                     SoldOut := t.SoldOut, Goodies := t.Goodies, Window := t.Window } })

/-- Outcome of Go `Exchange`: the system-down error, a wrapped `readTicket`
error, a propagated `readTicket` panic, the three business denials, a
wrapped `updateTicketExchange` error, or success. -/
inductive ExchangeOutcome where
  | errDown : ExchangeOutcome
  | errRead (tickNum : Int) : ExchangeOutcome
  | panicked (tickNum stamped : Int) : ExchangeOutcome
  | notEntitled : ExchangeOutcome
  | alreadyDone : ExchangeOutcome
  | outOfGoods : ExchangeOutcome
  | errUpdate (tickNum : Int) : ExchangeOutcome
  | ok : ExchangeOutcome
deriving Repr, DecidableEq

/-- Go `Exchange(tickNum, oldGoodie, newGoodie)`: gate on `salesOpen`, read
the ticket, then the eligibility checks in source order (`SoldOut`,
`!Goodies`, `Exchanged`, `totExchanges >= maxExchanges`), each returning
without mutating anything; on success increment `totExchanges`, set the
exchange fields on the copy and persist via `updateTicketExchange`. -/
def Exchange (st : TicketsState) (tickNum : Int) (oldGoodie newGoodie : String) :
    ExchangeOutcome × TicketsState :=
  if st.salesOpen then
    match readTicket st tickNum with
    | ReadOutcome.errOutside n => (ExchangeOutcome.errRead n, st)
    | ReadOutcome.errNotAlloc n => (ExchangeOutcome.errRead n, st)
    | ReadOutcome.panicked n m => (ExchangeOutcome.panicked n m, st)
    | ReadOutcome.ok t =>
      if t.SoldOut then (ExchangeOutcome.notEntitled, st)
      else if !t.Goodies then (ExchangeOutcome.notEntitled, st)
      else if t.Exchanged then (ExchangeOutcome.alreadyDone, st)
      else if st.totExchanges ≥ st.maxExchanges then (ExchangeOutcome.outOfGoods, st)
      else
        let st1 := { st with totExchanges := st.totExchanges + 1 }
        let t1 := { t with Exchanged := true, XchOld := oldGoodie, XchNew := newGoodie }
        match updateTicketExchange t1 st1 with
        | (some n, st2) => (ExchangeOutcome.errUpdate n, st2)
        | (none, st2) => (ExchangeOutcome.ok, st2)
  else (ExchangeOutcome.errDown, st)

/-- Validation errors from Go `Sell`, each recording the data its message
interpolates (`reqIndex` is the 1-based `i + 1` of the source). -/
inductive SellError where
  | badWindow (w maxW : Int) : SellError
  | badMovie (reqIndex movie maxM : Int) : SellError
  | badShowing (reqIndex showing maxS : Int) : SellError
  | updateFailed (reqIndex tickNum : Int) : SellError
deriving Repr, DecidableEq

/-- The validation loop of Go `Sell` ("Edit as much as possible before
consuming tickets in the DB"): the first out-of-range movie or showing,
with its 1-based request index. -/
def findInvalid (maxM maxS : Int) : List (Int × Int) → Int → Option SellError
  | [], _ => none
  | (movie, showing) :: rest, i =>
    if movie < 0 ∨ movie ≥ maxM then some (SellError.badMovie i movie maxM)
    else if showing < 0 ∨ showing ≥ maxS then some (SellError.badShowing i showing maxS)
    else findInvalid maxM maxS rest (i + 1)

/-- Outcome of Go `Sell`: the process-terminating `os.Exit` inside
`nextTicket` (`fatal`), an error return carrying the partially filled
ticket slice and receipt, the system-down error, or success. -/
inductive SellOutcome where
  | fatal : SellOutcome
  | errDown : SellOutcome
  | err (e : SellError) (tickets : List Ticket) (receipt : Receipt) : SellOutcome
  | ok (tickets : List Ticket) (receipt : Receipt) : SellOutcome
deriving Repr, DecidableEq

/-- The in-memory ticket assembled by one iteration of Go `Sell`'s selling
loop from the drawn ticket `t0`: movie, showing and window are stamped,
price and sold-out flag come from `checkAvailabilityAndPrice`, and goodies
are granted only when the ticket sold (not sold out) through window 1. -/
def saleTicket (window movie showing : Int) (t0 : Ticket)
    (soldOut : Bool) (price : Int) : Ticket :=
  let t1 := { t0 with Movie := movie, Showing := showing, Window := window }
  let t2 := { t1 with Price := price, SoldOut := soldOut }
  if soldOut = false ∧ window = 1 then { t2 with Goodies := true } else t2

/-- The receipt line appended by Go `Sell` for a ticket actually sold. -/
def saleItem (movie showing price : Int) : RItem :=
  { Desc := "Movie " ++ toString movie ++ ", Showing " ++ toString showing
    Pennies := price }

/-- The selling loop of Go `Sell`: per request draw a ticket, stamp movie /
showing / window, consume a seat for price and sold-out flag, and when not
sold out accumulate the total, grant goodies at window 1 and append a
receipt line; store the ticket at its request position and persist it via
`updateTicketSale`.  `i` is the 0-based request position; `tickets` is the
preallocated result slice; `items` and `total` accumulate the receipt. -/
def sellLoop (window : Int) (localTime : String) :
    List (Int × Int) → Nat → List Ticket → List RItem → Int → TicketsState →
    SellOutcome × TicketsState
  | [], _, tickets, items, total, st =>
    (SellOutcome.ok tickets
      { Time := localTime, Window := window, ItemsSold := items, Total := total }, st)
  | (movie, showing) :: rest, i, tickets, items, total, st =>
    match nextTicket st with
    | none => (SellOutcome.fatal, st)
    | some (t0, st1) =>
      let pr := checkAvailabilityAndPrice movie showing st1
      let t3 := saleTicket window movie showing t0 pr.1.2 pr.1.1
      let total2 := if pr.1.2 then total else total + pr.1.1
      let items2 := if pr.1.2 then items else items ++ [saleItem movie showing pr.1.1]
      let tickets2 := tickets.set i t3
      match updateTicketSale t3 pr.2 with
      | (some n, st3) =>
        (SellOutcome.err (SellError.updateFailed ((i : Int) + 1) n) tickets2
          { Time := localTime, Window := window, ItemsSold := items2, Total := 0 }, st3)
      | (none, st3) => sellLoop window localTime rest (i + 1) tickets2 items2 total2 st3

/-- Go `Sell(window, ticketRequests, paymentInfo, localTime)`: gate on
`salesOpen`, preallocate the result slice and the receipt header, validate
the window, validate every request before consuming anything, then run the
selling loop.  `paymentInfo` is ignored by the source and omitted. -/
def Sell (st : TicketsState) (window : Int) (ticketRequests : List (Int × Int))
    (localTime : String) : SellOutcome × TicketsState :=
  if st.salesOpen then
    let tickets := List.replicate ticketRequests.length Ticket.zero
    let receipt : Receipt := { Time := localTime, Window := window, ItemsSold := [], Total := 0 }
    if window < 1 ∨ window > st.maxWindows then
      (SellOutcome.err (SellError.badWindow window st.maxWindows) tickets receipt, st)
    else
      match findInvalid st.maxMovies st.maxShowings ticketRequests 1 with
      | some e => (SellOutcome.err e tickets receipt, st)
      | none => sellLoop window localTime ticketRequests 0 tickets [] 0 st
  else (SellOutcome.errDown, st)

/-! ## List helper lemmas -/

theorem getD_set_self {α : Type} : ∀ (l : List α) (i : Nat) (v d : α),
    i < l.length → (l.set i v).getD i d = v := by
  intro l
  induction l with
  | nil => intro i v d h; simp at h
  | cons a t ih =>
    intro i v d h
    cases i with
    | zero => rfl
    | succ n => exact ih n v d (by simpa using h)

theorem getD_set_ne {α : Type} : ∀ (l : List α) (i j : Nat) (v d : α),
    i ≠ j → (l.set i v).getD j d = l.getD j d := by
  intro l
  induction l with
  | nil => intro i j v d _; rfl
  | cons a t ih =>
    intro i j v d hij
    cases i with
    | zero => cases j with
      | zero => exact absurd rfl hij
      | succ m => rfl
    | succ n => cases j with
      | zero => rfl
      | succ m => exact ih n m v d (fun h => hij (by rw [h]))

theorem getD_replicate {α : Type} : ∀ (n j : Nat) (a : α),
    (List.replicate n a).getD j a = a := by
  intro n
  induction n with
  | zero => intro j a; cases j <;> rfl
  | succ m ih =>
    intro j a
    cases j with
    | zero => rfl
    | succ k => exact ih k a

theorem drop_eq_getD_cons {α : Type} : ∀ (l : List α) (i : Nat) (d : α),
    i < l.length → l.drop i = l.getD i d :: l.drop (i + 1) := by
  intro l
  induction l with
  | nil => intro i d h; simp at h
  | cons a t ih =>
    intro i d h
    cases i with
    | zero => rfl
    | succ n => exact ih n d (by simpa using h)

theorem mem_of_mem_set {α : Type} : ∀ (l : List α) (i : Nat) (v x : α),
    x ∈ l.set i v → x = v ∨ x ∈ l := by
  intro l
  induction l with
  | nil => intro i v x hx; simp at hx
  | cons a t ih =>
    intro i v x hx
    cases i with
    | zero =>
      rcases (List.mem_cons.1 hx) with h | h
      · exact Or.inl h
      · exact Or.inr (List.mem_cons_of_mem a h)
    | succ n =>
      rcases (List.mem_cons.1 hx) with h | h
      · exact Or.inr (h ▸ List.mem_cons_self a t)
      · rcases ih n v x h with h2 | h2
        · exact Or.inl h2
        · exact Or.inr (List.mem_cons_of_mem a h2)

/-! ## C2: readTicket failure modes -/

/-- A state whose DB has two slots (indices 0 and 1), slot 1 never
allocated (its stamp is the zero value 0). -/
def stC2 : TicketsState :=
  { initialState with ticketRqstDB := List.replicate 2 Ticket.zero }

/-- C2 counterexample: identifier 1 is inside the valid range of `stC2`
but its slot's stamped identifier (0) does not match, and `readTicket`
aborts with the `default:` branch panic (abnormal termination) instead of
returning a `NotAllocated` error, contradicting the claim that Read fails
by returning `NotAllocated` and never by abnormal termination. -/
theorem c2_counterexample : readTicket stC2 1 = ReadOutcome.panicked 1 0 := by
  decide

/-- C2 (amended): `readTicket` fails by returning a `NotAllocated`-style
error exactly when the identifier is outside the valid range (below 1,
including the reserved slot 0 and negatives, or at/after the table length);
when the identifier is in range but the slot's stamped identifier does not
match the one requested (e.g. an identifier never yet issued), `readTicket`
aborts via panic (abnormal termination) rather than returning an error. -/
theorem c2_read_failure_modes (st : TicketsState) (tickNum : Int) :
    (tickNum < 1 ∨ tickNum ≥ (st.ticketRqstDB.length : Int) →
      readTicket st tickNum = ReadOutcome.errOutside tickNum) ∧
    (1 ≤ tickNum → tickNum < (st.ticketRqstDB.length : Int) →
      (st.ticketRqstDB.getD tickNum.toNat Ticket.zero).TicketNum ≠ tickNum →
      readTicket st tickNum =
        ReadOutcome.panicked tickNum
          (st.ticketRqstDB.getD tickNum.toNat Ticket.zero).TicketNum) := by
  constructor
  · intro h
    simp only [readTicket]
    rw [if_pos h]
  · intro h1 h2 hne
    simp only [readTicket]
    rw [if_neg (by omega), if_neg (by omega), if_neg (fun h => hne h.symm)]

/-- C2 amended, witness: out-of-range identifier 0 returns the error;
in-range unallocated identifier 1 panics. -/
theorem c2_read_failure_modes_witness :
    readTicket stC2 0 = ReadOutcome.errOutside 0 ∧
    readTicket stC2 1 = ReadOutcome.panicked 1 0 :=
  ⟨(c2_read_failure_modes stC2 0).1 (by decide),
    by
      have h := (c2_read_failure_modes stC2 1).2 (by decide) (by decide) (by decide)
      simpa using h⟩

/-! ## C7: initOnce validation -/

/-- C7 counterexample: `initOnce` with a valid `MaxExchanges` of 5 and an
invalid `MaxMovies` of 0 fails with the `MaxMovies` configuration error,
yet the failing call has already overwritten the configuration limits
`maxExchanges` (0 → 5) and `maxMovies` (0 → 0), contradicting the claim
that no configuration limit is changed by the failing call. -/
theorem c7_counterexample :
    (initOnce (some ()) 5 0 7 8 9 initialState).1 =
      some (ConfigErr.badMaxMovies 0) ∧
    (initOnce (some ()) 5 0 7 8 9 initialState).2.maxExchanges = 5 ∧
    initialState.maxExchanges = 0 := by
  decide

/-- C7 (amended): if any parameter is invalid (`exchangeStock < 0` or any
of the four counts `< 1`, checked in source order, a nil logger aside),
`initOnce` fails with a `ConfigurationError` naming the first invalid
field, and the seat ledger, record store, identifier source, sales-open
flag, exchange counter and init gate are unchanged — but the configuration
limit variables assigned before the failing check (including the invalid
one) have already been overwritten with the supplied values. -/
theorem c7_config_error_partial_mutation (parmL : Option Unit)
    (pE pM pS pSeats pW : Int) (st : TicketsState) (e : ConfigErr)
    (hfail : (initOnce parmL pE pM pS pSeats pW st).1 = some e) :
    ((initOnce parmL pE pM pS pSeats pW st).2.seatsSold = st.seatsSold ∧
     (initOnce parmL pE pM pS pSeats pW st).2.ticketRqstDB = st.ticketRqstDB ∧
     (initOnce parmL pE pM pS pSeats pW st).2.nextTicketNum = st.nextTicketNum ∧
     (initOnce parmL pE pM pS pSeats pW st).2.salesOpen = st.salesOpen ∧
     (initOnce parmL pE pM pS pSeats pW st).2.totExchanges = st.totExchanges ∧
     (initOnce parmL pE pM pS pSeats pW st).2.initDone = st.initDone) ∧
    ((e = ConfigErr.missingLogger ∧ parmL = none) ∨
     (e = ConfigErr.badMaxExchanges pE ∧ pE < 0) ∨
     (e = ConfigErr.badMaxMovies pM ∧ 0 ≤ pE ∧ pM < 1) ∨
     (e = ConfigErr.badMaxShowings pM ∧ 0 ≤ pE ∧ 1 ≤ pM ∧ pS < 1) ∨
     (e = ConfigErr.badMaxSeats pM ∧ 0 ≤ pE ∧ 1 ≤ pM ∧ 1 ≤ pS ∧ pSeats < 1) ∨
     (e = ConfigErr.badMaxWindows pM ∧
        0 ≤ pE ∧ 1 ≤ pM ∧ 1 ≤ pS ∧ 1 ≤ pSeats ∧ pW < 1)) := by
  dsimp only [initOnce] at hfail ⊢
  split_ifs at hfail ⊢ with h1 h2 h3 h4 h5 h6
  · exact ⟨⟨rfl, rfl, rfl, rfl, rfl, rfl⟩,
      Or.inl ⟨(Option.some.inj hfail).symm, Option.isNone_iff_eq_none.1 h1⟩⟩
  · exact ⟨⟨rfl, rfl, rfl, rfl, rfl, rfl⟩,
      Or.inr (Or.inl ⟨(Option.some.inj hfail).symm, h2⟩)⟩
  · exact ⟨⟨rfl, rfl, rfl, rfl, rfl, rfl⟩,
      Or.inr (Or.inr (Or.inl ⟨(Option.some.inj hfail).symm, by omega, h3⟩))⟩
  · exact ⟨⟨rfl, rfl, rfl, rfl, rfl, rfl⟩,
      Or.inr (Or.inr (Or.inr (Or.inl
        ⟨(Option.some.inj hfail).symm, by omega, by omega, h4⟩)))⟩
  · exact ⟨⟨rfl, rfl, rfl, rfl, rfl, rfl⟩,
      Or.inr (Or.inr (Or.inr (Or.inr (Or.inl
        ⟨(Option.some.inj hfail).symm, by omega, by omega, by omega, h5⟩))))⟩
  · exact ⟨⟨rfl, rfl, rfl, rfl, rfl, rfl⟩,
      Or.inr (Or.inr (Or.inr (Or.inr (Or.inr
        ⟨(Option.some.inj hfail).symm, by omega, by omega, by omega, by omega, h6⟩))))⟩

/-- C7 amended, witness: the failing `initOnce` call with `MaxMovies = 0`
leaves the non-configuration state of `initialState` unchanged. -/
theorem c7_config_error_partial_mutation_witness :
    (initOnce (some ()) 5 0 7 8 9 initialState).2.seatsSold = initialState.seatsSold ∧
    (initOnce (some ()) 5 0 7 8 9 initialState).2.salesOpen = initialState.salesOpen :=
  ⟨(c7_config_error_partial_mutation (some ()) 5 0 7 8 9 initialState
      (ConfigErr.badMaxMovies 0) (by decide)).1.1,
   (c7_config_error_partial_mutation (some ()) 5 0 7 8 9 initialState
      (ConfigErr.badMaxMovies 0) (by decide)).1.2.2.2.1⟩

/-! ## C8: the Init gate -/

/-- The state after a first `Init` call that fails validation
(`MaxExchanges = -1`): the `sync.Once` gate is consumed. -/
def c8FirstState : TicketsState := (Init (some ()) (-1) 1 1 1 1 initialState).2

/-- C8 counterexample: the first `Init` call fails with the `MaxExchanges`
configuration error, but a second `Init` call (same arguments) returns nil
instead of that first result, contradicting the claim that the first
call's result is the value returned to every caller. -/
theorem c8_counterexample :
    (Init (some ()) (-1) 1 1 1 1 initialState).1 =
      some (ConfigErr.badMaxExchanges (-1)) ∧
    (Init (some ()) (-1) 1 1 1 1 c8FirstState).1 = none := by
  decide

/-- C8 (amended): `Init` is callable many times and performs its real work
(`initOnce`) exactly once — the first call runs `initOnce` and marks the
gate done, returning `initOnce`'s result; every subsequent call performs no
work, leaves the state unchanged, and returns nil regardless of the first
call's outcome, so later callers receive the first call's result only when
that result was nil. -/
theorem c8_init_gate (parmL parmL2 : Option Unit)
    (pE pM pS pSeats pW pE2 pM2 pS2 pSeats2 pW2 : Int) (st : TicketsState) :
    (st.initDone = false →
      Init parmL pE pM pS pSeats pW st =
        ((initOnce parmL pE pM pS pSeats pW st).1,
         { (initOnce parmL pE pM pS pSeats pW st).2 with initDone := true })) ∧
    (st.initDone = true →
      Init parmL2 pE2 pM2 pS2 pSeats2 pW2 st = (none, st)) := by
  constructor
  · intro h
    simp [Init, h]
  · intro h
    simp [Init, h]

/-- C8 amended, witness: the failed first call consumed the gate, so a
repeat call on `c8FirstState` does nothing and returns nil. -/
theorem c8_init_gate_witness :
    Init (some ()) (-1) 1 1 1 1 c8FirstState = (none, c8FirstState) :=
  (c8_init_gate (some ()) (some ()) (-1) 1 1 1 1 (-1) 1 1 1 1 c8FirstState).2
    (by decide)

/-! ## C4 / C10: Exchange -/

/-- Inversion of a successful `readTicket`: the identifier is in range and
the returned copy carries the requested identifier (the switch matched the
slot's stamp). -/
theorem readTicket_ok_inv (st : TicketsState) (tickNum : Int) (t : Ticket)
    (h : readTicket st tickNum = ReadOutcome.ok t) :
    1 ≤ tickNum ∧ tickNum < (st.ticketRqstDB.length : Int) ∧
      t.TicketNum = tickNum := by
  dsimp only [readTicket] at h
  split_ifs at h with h1 h2 h3
  cases h
  exact ⟨by omega, by omega, h3.symm⟩

/-- C4: with sales open and the initial read successful, `Exchange` checks
eligibility in source order — sold-out first (`NotEntitled`), then missing
goodies flag (`NotEntitled`), then already-exchanged (`AlreadyExchanged`),
then exhausted exchange stock (`OutOfGoods`) — the first failing check
determines the error, and every denial returns with the state unchanged
(no record change, no counter change). -/
theorem c4_exchange_denials (st : TicketsState) (tickNum : Int)
    (og ng : String) (t : Ticket) (hopen : st.salesOpen = true)
    (hread : readTicket st tickNum = ReadOutcome.ok t) :
    (t.SoldOut = true →
      Exchange st tickNum og ng = (ExchangeOutcome.notEntitled, st)) ∧
    (t.SoldOut = false → t.Goodies = false →
      Exchange st tickNum og ng = (ExchangeOutcome.notEntitled, st)) ∧
    (t.SoldOut = false → t.Goodies = true → t.Exchanged = true →
      Exchange st tickNum og ng = (ExchangeOutcome.alreadyDone, st)) ∧
    (t.SoldOut = false → t.Goodies = true → t.Exchanged = false →
      st.maxExchanges ≤ st.totExchanges →
      Exchange st tickNum og ng = (ExchangeOutcome.outOfGoods, st)) := by
  refine ⟨fun hso => ?_, fun hso hgd => ?_, fun hso hgd hx => ?_,
    fun hso hgd hx hstock => ?_⟩
  · simp [Exchange, hopen, hread, hso]
  · simp [Exchange, hopen, hread, hso, hgd]
  · simp [Exchange, hopen, hread, hso, hgd, hx]
  · simp [Exchange, hopen, hread, hso, hgd, hx, hstock]

/-- A state holding one sold-out ticket (slot 1), sales open, stock 1. -/
def stC4 : TicketsState :=
  { initialState with
    salesOpen := true
    maxExchanges := 1
    ticketRqstDB := [Ticket.zero, { Ticket.zero with TicketNum := 1, SoldOut := true }] }

/-- C4, witness: exchanging the sold-out ticket 1 of `stC4` is denied
`NotEntitled` and leaves the state unchanged. -/
theorem c4_exchange_denials_witness :
    Exchange stC4 1 "water" "soda" = (ExchangeOutcome.notEntitled, stC4) :=
  (c4_exchange_denials stC4 1 "water" "soda"
    { Ticket.zero with TicketNum := 1, SoldOut := true }
    (by decide) (by decide)).1 (by decide)

/-- C10 (implicit): whenever `Exchange`'s initial read succeeds and all
four eligibility checks pass, the final persist step cannot fail —
`updateTicketExchange`'s out-of-range branch is unreachable because the
successful `readTicket` already established `1 ≤ TicketNum < table length`
and the table length is unchanged in between — so `Exchange` returns
success, with the exchange counter incremented and the exchanged flag and
old/new goods stored in the record. -/
theorem c10_exchange_success_total (st : TicketsState) (tickNum : Int)
    (og ng : String) (t : Ticket) (hopen : st.salesOpen = true)
    (hread : readTicket st tickNum = ReadOutcome.ok t)
    (hso : t.SoldOut = false) (hgd : t.Goodies = true)
    (hx : t.Exchanged = false) (hstock : st.totExchanges < st.maxExchanges) :
    (Exchange st tickNum og ng).1 = ExchangeOutcome.ok ∧
    (Exchange st tickNum og ng).2.totExchanges = st.totExchanges + 1 ∧
    ((Exchange st tickNum og ng).2.ticketRqstDB.getD tickNum.toNat
        Ticket.zero).Exchanged = true ∧
    ((Exchange st tickNum og ng).2.ticketRqstDB.getD tickNum.toNat
        Ticket.zero).XchOld = og ∧
    ((Exchange st tickNum og ng).2.ticketRqstDB.getD tickNum.toNat
        Ticket.zero).XchNew = ng := by
  obtain ⟨hlo, hhi, htn⟩ := readTicket_ok_inv st tickNum t hread
  have hguard : ¬(tickNum < 1 ∨ tickNum ≥ (st.ticketRqstDB.length : Int)) := by
    omega
  have hidx : tickNum.toNat < st.ticketRqstDB.length := by omega
  simp only [Exchange, hopen, if_true, hread, hso, hgd, hx, Bool.not_true,
    Bool.false_eq_true, if_false, if_neg (not_le.2 hstock),
    updateTicketExchange, htn]
  rw [if_neg hguard]
  exact ⟨rfl, rfl, by rw [getD_set_self _ _ _ _ hidx],
    by rw [getD_set_self _ _ _ _ hidx], by rw [getD_set_self _ _ _ _ hidx]⟩

/-- A state holding one goodies-eligible, unexchanged ticket (slot 1),
sales open, exchange stock 1, no exchanges made yet. -/
def stC10 : TicketsState :=
  { initialState with
    salesOpen := true
    maxExchanges := 1
    ticketRqstDB := [Ticket.zero, { Ticket.zero with TicketNum := 1, Goodies := true }] }

/-- C10, witness: exchanging ticket 1 of `stC10` succeeds, increments the
counter and stores the exchange fields. -/
theorem c10_exchange_success_total_witness :
    (Exchange stC10 1 "water" "soda").1 = ExchangeOutcome.ok ∧
    (Exchange stC10 1 "water" "soda").2.totExchanges = 1 ∧
    ((Exchange stC10 1 "water" "soda").2.ticketRqstDB.getD 1
        Ticket.zero).XchNew = "soda" := by
  have h := c10_exchange_success_total stC10 1 "water" "soda"
    { Ticket.zero with TicketNum := 1, Goodies := true }
    (by decide) (by decide) (by decide) (by decide) (by decide) (by decide)
  exact ⟨h.1, h.2.1, h.2.2.2.2⟩

/-! ## C6: seat accounting under the int32 counters -/

/-- A sequence of `k` sequential `checkAvailabilityAndPrice` calls for the
same `(movie, showing)` pair, earliest call applied first. -/
def consumeIter (m s : Int) : Nat → TicketsState → TicketsState
  | 0, st => st
  | k + 1, st => consumeIter m s k (checkAvailabilityAndPrice m s st).2

/-- The `soldOut` flag reported by the `k`-th sequential
`checkAvailabilityAndPrice` call (`k ≥ 1`) for `(m, s)` starting from
`st`. -/
def soldOutAtCall (m s : Int) (st : TicketsState) (k : Nat) : Bool :=
  ((checkAvailabilityAndPrice m s (consumeIter m s (k - 1) st)).1).2

theorem wrap32_bounds (x : Int) : -2 ^ 31 ≤ wrap32 x ∧ wrap32 x < 2 ^ 31 := by
  unfold wrap32
  omega

theorem wrap32_of_range (x : Int) (h1 : -2 ^ 31 ≤ x) (h2 : x < 2 ^ 31) :
    wrap32 x = x := by
  unfold wrap32
  omega

theorem wrap32_wrap32_add (a b : Int) : wrap32 (wrap32 a + b) = wrap32 (a + b) := by
  unfold wrap32
  omega

theorem wrap32_idem (x : Int) : wrap32 (wrap32 x) = wrap32 x := by
  unfold wrap32
  omega

/-- One `checkAvailabilityAndPrice` call: flat price 1000, counter bumped
by one with int32 wraparound, sold-out judged against the post-increment
value; no other part of the ledger shape or configuration changes. -/
theorem checkAvail_step (st : TicketsState) (m s : Int)
    (hm : m.toNat < st.seatsSold.length)
    (hs : s.toNat < (st.seatsSold.getD m.toNat []).length) :
    seatCount (checkAvailabilityAndPrice m s st).2 m s =
      wrap32 (seatCount st m s + 1) ∧
    (checkAvailabilityAndPrice m s st).2.maxSeats = st.maxSeats ∧
    (checkAvailabilityAndPrice m s st).2.seatsSold.length = st.seatsSold.length ∧
    ((checkAvailabilityAndPrice m s st).2.seatsSold.getD m.toNat []).length =
      (st.seatsSold.getD m.toNat []).length ∧
    (checkAvailabilityAndPrice m s st).1 =
      (1000, decide (st.maxSeats < wrap32 (seatCount st m s + 1))) := by
  dsimp only [checkAvailabilityAndPrice, seatCount]
  refine ⟨?_, rfl, by simp, ?_, ?_⟩
  · rw [getD_set_self _ _ _ _ hm, getD_set_self _ _ _ _ hs]
  · rw [getD_set_self _ _ _ _ hm]
    simp
  · rfl

/-- Counter value and ledger shape after `k` sequential calls, assuming
the starting counter is an in-range int32 value. -/
theorem consumeIter_spec (m s : Int) : ∀ (k : Nat) (st : TicketsState),
    m.toNat < st.seatsSold.length →
    s.toNat < (st.seatsSold.getD m.toNat []).length →
    seatCount st m s = wrap32 (seatCount st m s) →
    seatCount (consumeIter m s k st) m s = wrap32 (seatCount st m s + k) ∧
    (consumeIter m s k st).maxSeats = st.maxSeats ∧
    (consumeIter m s k st).seatsSold.length = st.seatsSold.length ∧
    ((consumeIter m s k st).seatsSold.getD m.toNat []).length =
      (st.seatsSold.getD m.toNat []).length := by
  intro k
  induction k with
  | zero =>
    intro st hm hs hc
    refine ⟨?_, rfl, rfl, rfl⟩
    simpa using hc
  | succ n ih =>
    intro st hm hs hc
    obtain ⟨hcnt, hmax, hlen, hrow, _⟩ := checkAvail_step st m s hm hs
    have hm2 : m.toNat < (checkAvailabilityAndPrice m s st).2.seatsSold.length := by
      omega
    have hs2 : s.toNat <
        ((checkAvailabilityAndPrice m s st).2.seatsSold.getD m.toNat []).length := by
      omega
    have hc2 : seatCount (checkAvailabilityAndPrice m s st).2 m s =
        wrap32 (seatCount (checkAvailabilityAndPrice m s st).2 m s) := by
      rw [hcnt, wrap32_idem]
    obtain ⟨ih1, ih2, ih3, ih4⟩ := ih (checkAvailabilityAndPrice m s st).2 hm2 hs2 hc2
    refine ⟨?_, ?_, ?_, ?_⟩
    · show seatCount (consumeIter m s n (checkAvailabilityAndPrice m s st).2) m s = _
      rw [ih1, hcnt, wrap32_wrap32_add]
      congr 1
      push_cast
      ring
    · show (consumeIter m s n (checkAvailabilityAndPrice m s st).2).maxSeats = _
      rw [ih2, hmax]
    · show (consumeIter m s n (checkAvailabilityAndPrice m s st).2).seatsSold.length = _
      rw [ih3, hlen]
    · show ((consumeIter m s n (checkAvailabilityAndPrice m s st).2).seatsSold.getD
        m.toNat []).length = _
      rw [ih4, hrow]

/-- The sold-out flag of the `k`-th call is the post-increment counter,
`wrap32 (c₀ + k)`, compared against `maxSeats`. -/
theorem soldOutAtCall_eq (m s : Int) (st : TicketsState) (k : Nat)
    (hk : 1 ≤ k) (hm : m.toNat < st.seatsSold.length)
    (hs : s.toNat < (st.seatsSold.getD m.toNat []).length)
    (hc : seatCount st m s = wrap32 (seatCount st m s)) :
    soldOutAtCall m s st k =
      decide (st.maxSeats < wrap32 (seatCount st m s + k)) := by
  unfold soldOutAtCall
  obtain ⟨h1, h2, h3, h4⟩ := consumeIter_spec m s (k - 1) st hm hs hc
  have hm2 : m.toNat < (consumeIter m s (k - 1) st).seatsSold.length := by omega
  have hs2 : s.toNat <
      ((consumeIter m s (k - 1) st).seatsSold.getD m.toNat []).length := by omega
  obtain ⟨_, _, _, _, hres⟩ := checkAvail_step (consumeIter m s (k - 1) st) m s hm2 hs2
  rw [hres, h1, h2, wrap32_wrap32_add]
  have : (seatCount st m s + (k - 1 : Nat) + 1) = seatCount st m s + (k : Int) := by
    have : ((k - 1 : Nat) : Int) = (k : Int) - 1 := by omega
    rw [this]
    ring
  rw [this]

/-- A state with one movie, one showing, one seat
(`seatsPerShowing = N = 1`), counter zero. -/
def stC6 : TicketsState :=
  { initialState with maxSeats := 1, seatsSold := [[0]] }

/-- C6 counterexample: with `N = 1`, the claim says the 2nd and every
subsequent call reports `overCapacity = true`, but the `int32` counter
wraps, and the `2^31`-th sequential call reports `overCapacity = false`
(its post-increment counter is `-2^31`, which is not greater than 1). -/
theorem c6_counterexample : soldOutAtCall 0 0 stC6 (2 ^ 31) = false := by
  rw [soldOutAtCall_eq 0 0 stC6 (2 ^ 31) (by norm_num) (by decide) (by decide)
    (by decide)]
  decide

/-- C6 (amended): for a fixed `(movie, showing)` with counter starting at
0 and `N = maxSeats`, each call bumps the counter by exactly one modulo
`2^32` (int32 wraparound) and judges `overCapacity` against the
post-increment value; the first `N` calls report `overCapacity = false`,
and the `(N+1)`-th and subsequent calls report `overCapacity = true` as
long as the call number stays below `2^31` (beyond which the wrapped
counter can fall back to `≤ N`). -/
theorem c6_seat_accounting (m s : Int) (st : TicketsState) (k : Nat)
    (hm : m.toNat < st.seatsSold.length)
    (hs : s.toNat < (st.seatsSold.getD m.toNat []).length)
    (hzero : seatCount st m s = 0) (hk : 1 ≤ k) :
    seatCount (consumeIter m s k st) m s = wrap32 (k : Int) ∧
    soldOutAtCall m s st k = decide (st.maxSeats < wrap32 (k : Int)) ∧
    ((k : Int) ≤ st.maxSeats → soldOutAtCall m s st k = false) ∧
    (st.maxSeats < (k : Int) → (k : Int) < 2 ^ 31 →
      soldOutAtCall m s st k = true) := by
  have hc : seatCount st m s = wrap32 (seatCount st m s) := by
    rw [hzero]
    decide
  have hcall := soldOutAtCall_eq m s st k hk hm hs hc
  rw [hzero] at hcall
  simp only [zero_add] at hcall
  refine ⟨?_, hcall, ?_, ?_⟩
  · have := (consumeIter_spec m s k st hm hs hc).1
    rw [hzero] at this
    simpa using this
  · intro hle
    rw [hcall]
    have hb := wrap32_bounds (k : Int)
    by_cases hcase : (k : Int) < 2 ^ 31
    · rw [wrap32_of_range _ (by omega) hcase]
      simp only [decide_eq_false_iff_not]
      omega
    · simp only [decide_eq_false_iff_not]
      omega
  · intro hgt hlt
    rw [hcall, wrap32_of_range _ (by omega) hlt]
    simpa using hgt

/-- C6 amended, witness: with `N = 1` and counter 0, call 1 reports no
over-capacity and call 2 reports over-capacity. -/
theorem c6_seat_accounting_witness :
    soldOutAtCall 0 0 stC6 1 = false ∧ soldOutAtCall 0 0 stC6 2 = true :=
  ⟨(c6_seat_accounting 0 0 stC6 1 (by decide) (by decide) (by decide)
      (by norm_num)).2.2.1 (by decide),
   (c6_seat_accounting 0 0 stC6 2 (by decide) (by decide) (by decide)
      (by norm_num)).2.2.2 (by decide) (by decide)⟩

/-! ## C1: sequential identifier issuance -/

/-- `k` sequential, non-concurrent `nextTicket` draws, earliest first;
`none` when any draw hits the fatal capacity-exhaustion exit. -/
def draws : Nat → TicketsState → Option (List Ticket × TicketsState)
  | 0, st => some ([], st)
  | k + 1, st =>
    match draws k st with
    | none => none
    | some (ts, st1) =>
      match nextTicket st1 with
      | none => none
      | some (t, st2) => some (ts ++ [t], st2)

/-- The identifiers delivered by `k` sequential draws. -/
def drawnNums (k : Nat) (st : TicketsState) : Option (List Int) :=
  (draws k st).map (fun p => p.1.map Ticket.TicketNum)

/-- A `nextTicket` draw below the table length succeeds and delivers the
ticket stamped with the current sequence number, advancing the sequence
and preserving the table length. -/
theorem nextTicket_ok (st : TicketsState)
    (h : st.nextTicketNum < (st.ticketRqstDB.length : Int)) :
    ∃ t st2, nextTicket st = some (t, st2) ∧
      t.TicketNum = st.nextTicketNum ∧
      st2.nextTicketNum = st.nextTicketNum + 1 ∧
      st2.ticketRqstDB.length = st.ticketRqstDB.length := by
  have heq : nextTicket st = some
      ({ st.ticketRqstDB.getD st.nextTicketNum.toNat Ticket.zero with
          TicketNum := st.nextTicketNum },
       { st with
          ticketRqstDB := st.ticketRqstDB.set st.nextTicketNum.toNat
            { st.ticketRqstDB.getD st.nextTicketNum.toNat Ticket.zero with
                TicketNum := st.nextTicketNum }
          nextTicketNum := st.nextTicketNum + 1 }) := by
    dsimp only [nextTicket]
    rw [if_neg (not_le.2 h)]
  exact ⟨_, _, heq, rfl, rfl, by simp⟩

/-- `k` sequential draws that stay within the table deliver exactly the
identifiers `n, n+1, ..., n+k-1` (where `n` is the current sequence
number), in order. -/
theorem draws_ok (k : Nat) : ∀ st : TicketsState,
    st.nextTicketNum + (k : Int) ≤ (st.ticketRqstDB.length : Int) →
    ∃ ts st1, draws k st = some (ts, st1) ∧
      ts.map Ticket.TicketNum =
        (List.range k).map (fun j : Nat => st.nextTicketNum + (j : Int)) ∧
      st1.nextTicketNum = st.nextTicketNum + (k : Int) ∧
      st1.ticketRqstDB.length = st.ticketRqstDB.length := by
  induction k with
  | zero =>
    intro st _
    exact ⟨[], st, rfl, by simp, by simp, rfl⟩
  | succ n ih =>
    intro st h
    obtain ⟨ts, st1, hdr, hmap, hnum, hlen⟩ := ih st (by push_cast at h ⊢; omega)
    obtain ⟨t, st2, hnt, htn, hnum2, hlen2⟩ := nextTicket_ok st1
      (by rw [hnum, hlen]; push_cast at h ⊢; omega)
    refine ⟨ts ++ [t], st2, ?_, ?_, ?_, ?_⟩
    · simp only [draws]
      rw [hdr]
      dsimp only
      rw [hnt]
    · rw [List.map_append, hmap, List.range_succ, List.map_append]
      simp [htn, hnum]
    · rw [hnum2, hnum]
      push_cast
      ring
    · rw [hlen2, hlen]

/-- C1: starting from a successfully initialized state, for sequential,
non-concurrent draws the k-th identifier delivered by the ticket source is
exactly k (strictly increasing, no gaps, starting at 1) for every
`k ≤ movies × showings × seats`; and once exactly
`movies × showings × seats` identifiers have been issued, the next draw
hits the fatal capacity-exhaustion exit (`os.Exit(1)` after logging,
modelled by `none`) rather than delivering a reused or zero identifier. -/
theorem c1_identifier_sequence (pE pM pS pSeats pW : Int) (st0 : TicketsState)
    (hE : 0 ≤ pE) (hM : 1 ≤ pM) (hS : 1 ≤ pS) (hSeats : 1 ≤ pSeats)
    (hW : 1 ≤ pW)
    (hinit : initOnce (some ()) pE pM pS pSeats pW initialState = (none, st0)) :
    (∀ k : Nat, (k : Int) ≤ pM * pS * pSeats →
      drawnNums k st0 = some ((List.range k).map (fun j : Nat => 1 + (j : Int)))) ∧
    draws ((pM * pS * pSeats).toNat + 1) st0 = none := by
  have h12 : 1 ≤ pM * pS := by nlinarith
  have hprod : 1 ≤ pM * pS * pSeats := by nlinarith
  dsimp only [initOnce] at hinit
  rw [if_neg (by simp), if_neg (by omega), if_neg (by omega), if_neg (by omega),
    if_neg (by omega), if_neg (by omega)] at hinit
  injection hinit with h1 h2
  have hnum0 : st0.nextTicketNum = 1 := by rw [← h2]
  have hlen0 : (st0.ticketRqstDB.length : Int) = pM * pS * pSeats + 1 := by
    rw [← h2]
    simp only [List.length_replicate]
    omega
  constructor
  · intro k hk
    obtain ⟨ts, st1, hdr, hmap, _, _⟩ :=
      draws_ok k st0 (by rw [hlen0, hnum0]; omega)
    simp only [drawnNums, hdr, Option.map_some']
    rw [hmap, hnum0]
  · obtain ⟨ts, st1, hdr, hmap, hnum1, hlen1⟩ :=
      draws_ok (pM * pS * pSeats).toNat st0 (by rw [hlen0, hnum0]; omega)
    have hnone : nextTicket st1 = none := by
      dsimp only [nextTicket]
      rw [if_pos (by rw [hnum1, hnum0, hlen1, hlen0]; omega)]
    simp only [draws]
    rw [hdr]
    dsimp only
    rw [hnone]

/-- C1, witness: with one movie, one showing and one seat (capacity 1),
the single draw delivers identifier 1 and the second draw is fatal. -/
theorem c1_identifier_sequence_witness :
    drawnNums 1 ((initOnce (some ()) 0 1 1 1 1 initialState).2) = some [1] ∧
    draws 2 ((initOnce (some ()) 0 1 1 1 1 initialState).2) = none := by
  have h := c1_identifier_sequence 0 1 1 1 1
    ((initOnce (some ()) 0 1 1 1 1 initialState).2)
    (by norm_num) (by norm_num) (by norm_num) (by norm_num) (by norm_num)
    (by decide)
  constructor
  · have h1 := h.1 1 (by norm_num)
    simpa using h1
  · have h2 := h.2
    simpa using h2

/-! ## C3: Sell validation precedes consumption -/

/-- The error returned by the validation loop really identifies the
offending request (1-based index relative to the start index) and its
out-of-range field. -/
theorem findInvalid_sound (maxM maxS : Int) : ∀ (reqs : List (Int × Int))
    (i : Int) (e : SellError), findInvalid maxM maxS reqs i = some e →
    ∃ k : Nat, k < reqs.length ∧
      ((e = SellError.badMovie (i + (k : Int)) (reqs.getD k (0, 0)).1 maxM ∧
          ((reqs.getD k (0, 0)).1 < 0 ∨ (reqs.getD k (0, 0)).1 ≥ maxM)) ∨
       (e = SellError.badShowing (i + (k : Int)) (reqs.getD k (0, 0)).2 maxS ∧
          ((reqs.getD k (0, 0)).2 < 0 ∨ (reqs.getD k (0, 0)).2 ≥ maxS))) := by
  intro reqs
  induction reqs with
  | nil => intro i e h; exact absurd h (by simp [findInvalid])
  | cons hd rest ih =>
    obtain ⟨movie, showing⟩ := hd
    intro i e h
    dsimp only [findInvalid] at h
    split_ifs at h with h1 h2
    · refine ⟨0, by simp, Or.inl ?_⟩
      simp only [Nat.cast_zero, add_zero]
      exact ⟨(Option.some.inj h).symm, h1⟩
    · refine ⟨0, by simp, Or.inr ?_⟩
      simp only [Nat.cast_zero, add_zero]
      exact ⟨(Option.some.inj h).symm, h2⟩
    · obtain ⟨k, hk, hcase⟩ := ih (i + 1) e h
      refine ⟨k + 1, by simpa using hk, ?_⟩
      have hidx : i + 1 + (k : Int) = i + ((k + 1 : Nat) : Int) := by
        push_cast
        ring
      rcases hcase with ⟨he, hr⟩ | ⟨he, hr⟩
      · exact Or.inl ⟨by rw [he, hidx]; rfl, hr⟩
      · exact Or.inr ⟨by rw [he, hidx]; rfl, hr⟩

/-- C3: with sales open, a `Sell` call whose window is out of range, or
any of whose requests has an out-of-range movie or showing, returns the
corresponding validation error — identifying the offending request and
field — and consumes nothing: the state is returned unchanged (no
identifier drawn, no seat counter bumped, no record touched), the ticket
slice is still all zero values and the receipt is empty, even when other
requests in the same call are valid. -/
theorem c3_sell_validation (st : TicketsState) (window : Int)
    (reqs : List (Int × Int)) (lt : String) (hopen : st.salesOpen = true) :
    (window < 1 ∨ window > st.maxWindows →
      Sell st window reqs lt =
        (SellOutcome.err (SellError.badWindow window st.maxWindows)
          (List.replicate reqs.length Ticket.zero)
          { Time := lt, Window := window, ItemsSold := [], Total := 0 }, st)) ∧
    (∀ e, 1 ≤ window → window ≤ st.maxWindows →
      findInvalid st.maxMovies st.maxShowings reqs 1 = some e →
      Sell st window reqs lt =
        (SellOutcome.err e (List.replicate reqs.length Ticket.zero)
          { Time := lt, Window := window, ItemsSold := [], Total := 0 }, st) ∧
      ∃ k : Nat, k < reqs.length ∧
        ((e = SellError.badMovie (1 + (k : Int)) (reqs.getD k (0, 0)).1 st.maxMovies ∧
            ((reqs.getD k (0, 0)).1 < 0 ∨ (reqs.getD k (0, 0)).1 ≥ st.maxMovies)) ∨
         (e = SellError.badShowing (1 + (k : Int)) (reqs.getD k (0, 0)).2 st.maxShowings ∧
            ((reqs.getD k (0, 0)).2 < 0 ∨ (reqs.getD k (0, 0)).2 ≥ st.maxShowings)))) := by
  constructor
  · intro h
    simp only [Sell, hopen, if_true]
    rw [if_pos h]
  · intro e h1 h2 hfind
    constructor
    · simp only [Sell, hopen, if_true]
      rw [if_neg (by omega), hfind]
    · exact findInvalid_sound st.maxMovies st.maxShowings reqs 1 e hfind

/-- A small open-for-sales state for the Sell witnesses: 2 movies,
2 showings, 2 seats, 3 windows, room for 4 tickets. -/
def stSell : TicketsState :=
  { initialState with
    salesOpen := true
    maxMovies := 2
    maxShowings := 2
    maxSeats := 2
    maxWindows := 3
    seatsSold := [[0, 0], [0, 0]]
    ticketRqstDB := List.replicate 9 Ticket.zero
    nextTicketNum := 1 }

/-- C3, witness: a call mixing a valid request with an out-of-range movie
is rejected with the error naming request 2 and its movie field, and the
state is returned unchanged. -/
theorem c3_sell_validation_witness :
    Sell stSell 1 [(0, 0), (5, 0)] "t" =
      (SellOutcome.err (SellError.badMovie 2 5 2)
        (List.replicate 2 Ticket.zero)
        { Time := "t", Window := 1, ItemsSold := [], Total := 0 }, stSell) := by
  have h := (c3_sell_validation stSell 1 [(0, 0), (5, 0)] "t" (by decide)).2
    (SellError.badMovie 2 5 2) (by decide) (by decide) (by decide)
  simpa using h.1

/-! ## Inversion lemmas for the selling loop (C5 / C9) -/

theorem saleTicket_fields (window movie showing : Int) (t0 : Ticket)
    (so : Bool) (price : Int) :
    (saleTicket window movie showing t0 so price).Movie = movie ∧
    (saleTicket window movie showing t0 so price).Showing = showing ∧
    (saleTicket window movie showing t0 so price).Window = window ∧
    (saleTicket window movie showing t0 so price).Price = price ∧
    (saleTicket window movie showing t0 so price).SoldOut = so ∧
    (saleTicket window movie showing t0 so price).TicketNum = t0.TicketNum ∧
    ((saleTicket window movie showing t0 so price).Goodies = true →
      t0.Goodies = true ∨ (so = false ∧ window = 1)) := by
  unfold saleTicket
  split_ifs with hcase
  · exact ⟨rfl, rfl, rfl, rfl, rfl, rfl, fun _ => Or.inr hcase⟩
  · exact ⟨rfl, rfl, rfl, rfl, rfl, rfl, fun h => Or.inl h⟩

theorem nextTicket_some_inv (st : TicketsState) (t0 : Ticket)
    (st1 : TicketsState) (h : nextTicket st = some (t0, st1)) :
    st.nextTicketNum < (st.ticketRqstDB.length : Int) ∧
    t0 = { st.ticketRqstDB.getD st.nextTicketNum.toNat Ticket.zero with
            TicketNum := st.nextTicketNum } ∧
    st1 = { st with
            ticketRqstDB := st.ticketRqstDB.set st.nextTicketNum.toNat
              { st.ticketRqstDB.getD st.nextTicketNum.toNat Ticket.zero with
                  TicketNum := st.nextTicketNum }
            nextTicketNum := st.nextTicketNum + 1 } := by
  dsimp only [nextTicket] at h
  split_ifs at h with hc
  injection h with h1
  injection h1 with ht hst
  exact ⟨by omega, ht.symm, hst.symm⟩

theorem updateTicketSale_none_inv (t : Ticket) (st r : TicketsState)
    (h : updateTicketSale t st = (none, r)) :
    1 ≤ t.TicketNum ∧ t.TicketNum < (st.ticketRqstDB.length : Int) ∧
    r = { st with
          ticketRqstDB := st.ticketRqstDB.set t.TicketNum.toNat
            { st.ticketRqstDB.getD t.TicketNum.toNat Ticket.zero with
                Movie := t.Movie, Showing := t.Showing, Price := t.Price
                SoldOut := t.SoldOut, Goodies := t.Goodies, Window := t.Window } } := by
  dsimp only [updateTicketSale] at h
  split_ifs at h with hc
  · exact absurd h (by simp)
  · injection h with h1 h2
    exact ⟨by omega, by omega, h2.symm⟩

/-- Inversion of one successful iteration of the selling loop: the draw
succeeded, the persist succeeded, and the loop continued on the remaining
requests with the accumulated data. -/
theorem sellLoop_cons_ok_inv (window : Int) (lt : String)
    (movie showing : Int) (rest : List (Int × Int)) (i : Nat)
    (tickets : List Ticket) (items : List RItem) (total : Int)
    (st : TicketsState) (tks : List Ticket) (rcpt : Receipt)
    (stOut : TicketsState)
    (hok : sellLoop window lt ((movie, showing) :: rest) i tickets items total st =
      (SellOutcome.ok tks rcpt, stOut)) :
    ∃ t0 st1 st3,
      nextTicket st = some (t0, st1) ∧
      updateTicketSale
        (saleTicket window movie showing t0
          (checkAvailabilityAndPrice movie showing st1).1.2
          (checkAvailabilityAndPrice movie showing st1).1.1)
        (checkAvailabilityAndPrice movie showing st1).2 = (none, st3) ∧
      sellLoop window lt rest (i + 1)
        (tickets.set i
          (saleTicket window movie showing t0
            (checkAvailabilityAndPrice movie showing st1).1.2
            (checkAvailabilityAndPrice movie showing st1).1.1))
        (if (checkAvailabilityAndPrice movie showing st1).1.2 then items
         else items ++ [saleItem movie showing
            (checkAvailabilityAndPrice movie showing st1).1.1])
        (if (checkAvailabilityAndPrice movie showing st1).1.2 then total
         else total + (checkAvailabilityAndPrice movie showing st1).1.1)
        st3 = (SellOutcome.ok tks rcpt, stOut) := by
  dsimp only [sellLoop] at hok
  cases hnt : nextTicket st with
  | none =>
    rw [hnt] at hok
    exact absurd hok (by simp)
  | some p =>
    obtain ⟨t0, st1⟩ := p
    rw [hnt] at hok
    dsimp only at hok
    refine ⟨t0, st1, ?_⟩
    cases hup : updateTicketSale
        (saleTicket window movie showing t0
          (checkAvailabilityAndPrice movie showing st1).1.2
          (checkAvailabilityAndPrice movie showing st1).1.1)
        (checkAvailabilityAndPrice movie showing st1).2 with
    | mk e st3 =>
      rw [hup] at hok
      cases e with
      | none => exact ⟨st3, rfl, rfl, hok⟩
      | some n => exact absurd hok (by simp)

/-- Invariant of the selling loop on the success path: result length and
prefix preservation, receipt header, flat pricing, positional
request-to-ticket correspondence, and the receipt's line items and total
over the non-sold-out tickets. -/
theorem sellLoop_ok_spec (window : Int) (lt : String) :
    ∀ (reqs : List (Int × Int)) (i : Nat) (tickets : List Ticket)
      (items : List RItem) (total : Int) (st : TicketsState)
      (tks : List Ticket) (rcpt : Receipt) (stOut : TicketsState),
      sellLoop window lt reqs i tickets items total st =
        (SellOutcome.ok tks rcpt, stOut) →
      tickets.length = i + reqs.length →
      tks.length = tickets.length ∧
      (∀ j, j < i → tks.getD j Ticket.zero = tickets.getD j Ticket.zero) ∧
      rcpt.Time = lt ∧ rcpt.Window = window ∧
      (∀ t ∈ tks.drop i, t.Price = 1000 ∧ t.Window = window) ∧
      List.Forall₂
        (fun (t : Ticket) (r : Int × Int) => t.Movie = r.1 ∧ t.Showing = r.2)
        (tks.drop i) reqs ∧
      ∃ newItems, rcpt.ItemsSold = items ++ newItems ∧
        newItems.map RItem.Pennies =
          ((tks.drop i).filter (fun t => !t.SoldOut)).map Ticket.Price ∧
        rcpt.Total =
          total + (((tks.drop i).filter (fun t => !t.SoldOut)).map Ticket.Price).sum := by
  intro reqs
  induction reqs with
  | nil =>
    intro i tickets items total st tks rcpt stOut hok htick
    dsimp only [sellLoop] at hok
    have h1 := congrArg Prod.fst hok
    have h2 := congrArg Prod.snd hok
    dsimp only at h1 h2
    injection h1 with ha hb
    subst ha
    subst hb
    simp only [List.length_nil, Nat.add_zero] at htick
    have hdrop : tickets.drop i = [] := by
      rw [← htick]
      exact List.drop_length tickets
    refine ⟨rfl, fun j _ => rfl, rfl, rfl, ?_, ?_, [], by simp, ?_, ?_⟩
    · rw [hdrop]
      intro t ht
      exact absurd ht (List.not_mem_nil t)
    · rw [hdrop]
      exact List.Forall₂.nil
    · rw [hdrop]
      rfl
    · rw [hdrop]
      simp
  | cons hd rest ih =>
    obtain ⟨movie, showing⟩ := hd
    intro i tickets items total st tks rcpt stOut hok htick
    obtain ⟨t0, st1, st3, hnt, hup, hrec⟩ :=
      sellLoop_cons_ok_inv window lt movie showing rest i tickets items total
        st tks rcpt stOut hok
    obtain ⟨hm, hs, hw, hp, hso, htn, hg⟩ := saleTicket_fields window movie
      showing t0 (checkAvailabilityAndPrice movie showing st1).1.2
      (checkAvailabilityAndPrice movie showing st1).1.1
    have hprice : (checkAvailabilityAndPrice movie showing st1).1.1 = 1000 := rfl
    set T := saleTicket window movie showing t0
      (checkAvailabilityAndPrice movie showing st1).1.2
      (checkAvailabilityAndPrice movie showing st1).1.1 with hT
    have hlen2 : (tickets.set i T).length = tickets.length := by simp
    simp only [List.length_cons] at htick
    have htick2 : (tickets.set i T).length = (i + 1) + rest.length := by
      rw [hlen2]
      omega
    obtain ⟨ihlen, ihpref, ihtime, ihwin, ihdrop, ihf2, newItems2, ihitems,
        ihmap, ihtot⟩ :=
      ih (i + 1)
        (tickets.set i T)
        (if (checkAvailabilityAndPrice movie showing st1).1.2 then items
         else items ++ [saleItem movie showing
            (checkAvailabilityAndPrice movie showing st1).1.1])
        (if (checkAvailabilityAndPrice movie showing st1).1.2 then total
         else total + (checkAvailabilityAndPrice movie showing st1).1.1)
        st3 tks rcpt stOut hrec htick2
    have hilt : i < tickets.length := by omega
    have hitks : i < tks.length := by
      rw [ihlen, hlen2]
      omega
    have htksi : tks.getD i Ticket.zero = T := by
      rw [ihpref i (by omega), getD_set_self _ _ _ _ hilt]
    have hdropc : tks.drop i = T :: tks.drop (i + 1) := by
      rw [drop_eq_getD_cons tks i Ticket.zero hitks, htksi]
    refine ⟨by rw [ihlen, hlen2], ?_, ihtime, ihwin, ?_, ?_, ?_⟩
    · intro j hj
      rw [ihpref j (by omega), getD_set_ne _ _ _ _ _ (by omega)]
    · rw [hdropc]
      intro t ht
      rcases List.mem_cons.1 ht with h | h
      · subst h
        exact ⟨by rw [hp, hprice], hw⟩
      · exact ihdrop t h
    · rw [hdropc]
      exact List.Forall₂.cons ⟨hm, hs⟩ ihf2
    · cases hcase : (checkAvailabilityAndPrice movie showing st1).1.2 with
      | true =>
        have hsoT : T.SoldOut = true := by rw [hso, hcase]
        rw [if_pos hcase] at ihitems ihtot
        have hfil : (tks.drop i).filter (fun t => !t.SoldOut) =
            (tks.drop (i + 1)).filter (fun t => !t.SoldOut) := by
          rw [hdropc]
          simp [List.filter_cons, hsoT]
        exact ⟨newItems2, ihitems, by rw [hfil]; exact ihmap,
          by rw [hfil]; exact ihtot⟩
      | false =>
        have hsoT : T.SoldOut = false := by rw [hso, hcase]
        rw [if_neg (by simp [hcase])] at ihitems ihtot
        have hfil : (tks.drop i).filter (fun t => !t.SoldOut) =
            T :: (tks.drop (i + 1)).filter (fun t => !t.SoldOut) := by
          rw [hdropc]
          simp [List.filter_cons, hsoT]
        refine ⟨saleItem movie showing
            (checkAvailabilityAndPrice movie showing st1).1.1 :: newItems2,
          ?_, ?_, ?_⟩
        · rw [ihitems, List.append_assoc, List.singleton_append]
        · rw [hfil, List.map_cons, List.map_cons, ihmap]
          have : (saleItem movie showing
              (checkAvailabilityAndPrice movie showing st1).1.1).Pennies =
              T.Price := by rw [hp]; rfl
          rw [this]
        · rw [hfil, List.map_cons, List.sum_cons, ihtot, hp]
          ring

/-- C5: for every successful `Sell` call, every returned ticket is priced
at the flat price of 1000 pennies (independent of movie and showing); the
tickets correspond position-by-position to the requests (so sold-out
placeholders appear at their original request position, flagged by their
sold-out field); the receipt has exactly one line item per non-sold-out
ticket, the line-item prices are exactly the prices of the non-sold-out
tickets, and the total is their sum — sold-out placeholders contribute
nothing to the line items or the total. -/
theorem c5_sell_pricing_receipt (st : TicketsState) (window : Int)
    (reqs : List (Int × Int)) (lt : String) (tks : List Ticket)
    (rcpt : Receipt) (stOut : TicketsState)
    (hok : Sell st window reqs lt = (SellOutcome.ok tks rcpt, stOut)) :
    tks.length = reqs.length ∧
    (∀ t ∈ tks, t.Price = 1000) ∧
    List.Forall₂
      (fun (t : Ticket) (r : Int × Int) => t.Movie = r.1 ∧ t.Showing = r.2)
      tks reqs ∧
    rcpt.ItemsSold.length = (tks.filter (fun t => !t.SoldOut)).length ∧
    rcpt.ItemsSold.map RItem.Pennies =
      (tks.filter (fun t => !t.SoldOut)).map Ticket.Price ∧
    rcpt.Total = ((tks.filter (fun t => !t.SoldOut)).map Ticket.Price).sum := by
  dsimp only [Sell] at hok
  split_ifs at hok with hopen hwin
  · simp at hok
  · cases hfind : findInvalid st.maxMovies st.maxShowings reqs 1 with
    | some e =>
      rw [hfind] at hok
      simp at hok
    | none =>
      rw [hfind] at hok
      dsimp only at hok
      obtain ⟨hlen, _, _, _, hdrop, hf2, newItems, hitems, hmap, htot⟩ :=
        sellLoop_ok_spec window lt reqs 0
          (List.replicate reqs.length Ticket.zero) [] 0 st tks rcpt stOut hok
          (by simp)
      rw [List.drop_zero] at hdrop hf2 hmap htot
      rw [List.nil_append] at hitems
      refine ⟨by simpa using hlen, fun t ht => (hdrop t ht).1, hf2, ?_, ?_, ?_⟩
      · rw [hitems]
        have := congrArg List.length hmap
        simpa using this
      · rw [hitems]
        exact hmap
      · simpa using htot
  · simp at hok

/-- The ticket list returned by the witness `Sell` call (window 1, three
requests for movie 0, showing 0 against 2 seats: two sales and one
sold-out placeholder). -/
def tksC5 : List Ticket :=
  match (Sell stSell 1 [(0, 0), (0, 0), (0, 0)] "t").1 with
  | SellOutcome.ok tks _ => tks
  | _ => []

/-- The receipt returned by the witness `Sell` call. -/
def rcptC5 : Receipt :=
  match (Sell stSell 1 [(0, 0), (0, 0), (0, 0)] "t").1 with
  | SellOutcome.ok _ rcpt => rcpt
  | _ => { Time := "", Window := 0, ItemsSold := [], Total := 0 }

/-- C5, witness: the concrete sale of three tickets (two sold, one
sold-out) satisfies the pricing and receipt properties. -/
theorem c5_sell_pricing_receipt_witness :
    tksC5.length = 3 ∧
    rcptC5.ItemsSold.length = (tksC5.filter (fun t => !t.SoldOut)).length ∧
    rcptC5.Total = ((tksC5.filter (fun t => !t.SoldOut)).map Ticket.Price).sum := by
  have h := c5_sell_pricing_receipt stSell 1 [(0, 0), (0, 0), (0, 0)] "t"
    tksC5 rcptC5 (Sell stSell 1 [(0, 0), (0, 0), (0, 0)] "t").2 (by decide)
  exact ⟨by simpa using h.1, h.2.2.2.1, h.2.2.2.2.2⟩

/-! ## C9: goodie gating -/

/-- Invariant of the selling loop: provided every not-yet-drawn slot of the
record store has a cleared goodies flag, every ticket in the result list
has goodies only if it sold (not sold out) through window 1. -/
theorem sellLoop_goodies (window : Int) (lt : String) :
    ∀ (reqs : List (Int × Int)) (i : Nat) (tickets : List Ticket)
      (items : List RItem) (total : Int) (st : TicketsState)
      (tks : List Ticket) (rcpt : Receipt) (stOut : TicketsState),
      sellLoop window lt reqs i tickets items total st =
        (SellOutcome.ok tks rcpt, stOut) →
      (∀ j : Nat, st.nextTicketNum ≤ (j : Int) →
        (st.ticketRqstDB.getD j Ticket.zero).Goodies = false) →
      (∀ t ∈ tickets, (window ≠ 1 → t.Goodies = false) ∧
        (t.Goodies = true → t.SoldOut = false ∧ t.Window = 1 ∧ window = 1)) →
      ∀ t ∈ tks, (window ≠ 1 → t.Goodies = false) ∧
        (t.Goodies = true → t.SoldOut = false ∧ t.Window = 1 ∧ window = 1) := by
  intro reqs
  induction reqs with
  | nil =>
    intro i tickets items total st tks rcpt stOut hok hfresh hP
    dsimp only [sellLoop] at hok
    have h1 := congrArg Prod.fst hok
    dsimp only at h1
    injection h1 with ha hb
    subst ha
    exact hP
  | cons hd rest ih =>
    obtain ⟨movie, showing⟩ := hd
    intro i tickets items total st tks rcpt stOut hok hfresh hP
    obtain ⟨t0, st1, st3, hnt, hup, hrec⟩ :=
      sellLoop_cons_ok_inv window lt movie showing rest i tickets items total
        st tks rcpt stOut hok
    obtain ⟨hlt, ht0, hst1⟩ := nextTicket_some_inv st t0 st1 hnt
    obtain ⟨hm, hs, hw, hp, hso, htn, hg⟩ := saleTicket_fields window movie
      showing t0 (checkAvailabilityAndPrice movie showing st1).1.2
      (checkAvailabilityAndPrice movie showing st1).1.1
    set T := saleTicket window movie showing t0
      (checkAvailabilityAndPrice movie showing st1).1.2
      (checkAvailabilityAndPrice movie showing st1).1.1 with hTdef
    obtain ⟨hT1, hT2, hst3⟩ := updateTicketSale_none_inv T
      (checkAvailabilityAndPrice movie showing st1).2 st3 hup
    have ht0g : t0.Goodies = false := by
      rw [ht0]
      exact hfresh st.nextTicketNum.toNat (Int.self_le_toNat _)
    have ht0n : t0.TicketNum = st.nextTicketNum := by rw [ht0]
    have hTn : T.TicketNum = st.nextTicketNum := by rw [htn, ht0n]
    have hn1 : 1 ≤ st.nextTicketNum := by
      rw [hTn] at hT1
      exact hT1
    have hPT : (window ≠ 1 → T.Goodies = false) ∧
        (T.Goodies = true → T.SoldOut = false ∧ T.Window = 1 ∧ window = 1) := by
      constructor
      · intro hw1
        cases hG : T.Goodies with
        | false => rfl
        | true =>
          rcases hg hG with h | ⟨_, h⟩
          · rw [ht0g] at h
            exact absurd h (by simp)
          · exact absurd h hw1
      · intro hG
        rcases hg hG with h | ⟨hso2, h1⟩
        · rw [ht0g] at h
          exact absurd h (by simp)
        · exact ⟨by rw [hso, hso2], by rw [hw, h1], h1⟩
    have hnum3 : st3.nextTicketNum = st.nextTicketNum + 1 := by
      rw [hst3, hst1]
      rfl
    have hdb3 : st3.ticketRqstDB = st1.ticketRqstDB.set T.TicketNum.toNat
        { st1.ticketRqstDB.getD T.TicketNum.toNat Ticket.zero with
            Movie := T.Movie, Showing := T.Showing, Price := T.Price
            SoldOut := T.SoldOut, Goodies := T.Goodies, Window := T.Window } := by
      rw [hst3]
      rfl
    have hfresh3 : ∀ j : Nat, st3.nextTicketNum ≤ (j : Int) →
        (st3.ticketRqstDB.getD j Ticket.zero).Goodies = false := by
      intro j hj
      rw [hnum3] at hj
      have hne : T.TicketNum.toNat ≠ j := by
        rw [hTn]
        omega
      have hne2 : st.nextTicketNum.toNat ≠ j := by omega
      rw [hdb3, getD_set_ne _ _ _ _ _ hne]
      have hdb1 : st1.ticketRqstDB =
          st.ticketRqstDB.set st.nextTicketNum.toNat t0 := by
        rw [hst1, ← ht0]
      rw [hdb1, getD_set_ne _ _ _ _ _ hne2]
      exact hfresh j (by omega)
    have hP2 : ∀ t ∈ tickets.set i T,
        (window ≠ 1 → t.Goodies = false) ∧
        (t.Goodies = true → t.SoldOut = false ∧ t.Window = 1 ∧ window = 1) := by
      intro t ht
      rcases mem_of_mem_set tickets i T t ht with h | h
      · rw [h]
        exact hPT
      · exact hP t h
    exact ih (i + 1) (tickets.set i T) _ _ st3 tks rcpt stOut hrec hfresh3 hP2

/-- C9: if every not-yet-issued slot of the record store has a cleared
goodies flag (as after initialization), then in the list returned by a
successful `Sell` call, every ticket sold through a window other than 1 has
`goodies = false` regardless of the sold-out outcome, and a ticket has
`goodies = true` only if it was actually sold (not sold-out) through
window 1. -/
theorem c9_goodie_gating (st : TicketsState) (window : Int)
    (reqs : List (Int × Int)) (lt : String) (tks : List Ticket)
    (rcpt : Receipt) (stOut : TicketsState)
    (hfresh : ∀ j : Nat, st.nextTicketNum ≤ (j : Int) →
      (st.ticketRqstDB.getD j Ticket.zero).Goodies = false)
    (hok : Sell st window reqs lt = (SellOutcome.ok tks rcpt, stOut)) :
    ∀ t ∈ tks, (window ≠ 1 → t.Goodies = false) ∧
      (t.Goodies = true → t.SoldOut = false ∧ t.Window = 1 ∧ window = 1) := by
  dsimp only [Sell] at hok
  split_ifs at hok with hopen hwin
  · simp at hok
  · cases hfind : findInvalid st.maxMovies st.maxShowings reqs 1 with
    | some e =>
      rw [hfind] at hok
      simp at hok
    | none =>
      rw [hfind] at hok
      dsimp only at hok
      refine sellLoop_goodies window lt reqs 0
        (List.replicate reqs.length Ticket.zero) [] 0 st tks rcpt stOut hok
        hfresh ?_
      intro t ht
      rw [List.eq_of_mem_replicate ht]
      exact ⟨fun _ => rfl, fun hG => absurd hG (by simp [Ticket.zero])⟩
  · simp at hok

/-- The ticket list returned by the witness `Sell` call through window 2
(not the goodie-granting window). -/
def tksC9 : List Ticket :=
  match (Sell stSell 2 [(0, 0)] "t").1 with
  | SellOutcome.ok tks _ => tks
  | _ => []

/-- The receipt returned by the witness window-2 `Sell` call. -/
def rcptC9 : Receipt :=
  match (Sell stSell 2 [(0, 0)] "t").1 with
  | SellOutcome.ok _ rcpt => rcpt
  | _ => { Time := "", Window := 0, ItemsSold := [], Total := 0 }

/-- C9, witness: the ticket sold through window 2 has no goodies. -/
theorem c9_goodie_gating_witness : (tksC9.getD 0 Ticket.zero).Goodies = false := by
  have hfresh : ∀ j : Nat, stSell.nextTicketNum ≤ (j : Int) →
      (stSell.ticketRqstDB.getD j Ticket.zero).Goodies = false := by
    intro j _
    show ((List.replicate 9 Ticket.zero).getD j Ticket.zero).Goodies = false
    rw [getD_replicate]
    rfl
  have h := c9_goodie_gating stSell 2 [(0, 0)] "t" tksC9 rcptC9
    (Sell stSell 2 [(0, 0)] "t").2 hfresh (by decide)
  exact (h (tksC9.getD 0 Ticket.zero) (by decide)).1 (by decide)

end Tickets
